import Mathlib

/-!
# Países del Mundo: the flashcard navigator of `main.js`

A shallow embedding of `src/main.js`: the module-level state, the three field
resolvers (`getCountryName`, `getCapitalName`, `getContinentName`), the render
function `updateUI` and the six click handlers registered by `setupListeners`.

Conventions of the embedding.

* JavaScript numbers are only ever used as small integers here (`currentIndex`,
  `length`), so they are `Int`; `currentIndex` can become `-1`.
* Arrays are `List`s; reading `a[i]` outside `0 ≤ i < a.length` gives `none`
  (JavaScript `undefined`).
* Values that the code may produce and that need not be strings are `JsVal`.
* What the runtime supplies (`String.prototype.toLowerCase`,
  `String.prototype.localeCompare` for the locale `es`, `Array.prototype.sort`)
  is a field of `Host`; every statement holds for every host.
* The DOM is the record `View` of the properties that `main.js` assigns; each
  field holds the value assigned to that property.
-/

set_option autoImplicit false

namespace PaisesDelMundo

/-! ## JavaScript values -/

/-- The JavaScript values that occur: `undefined`, `null`, booleans, integers,
strings, and `protoMember k`, the value of `Object.prototype[k]` for one of the
property names every plain object inherits (a function, or for `__proto__` the
prototype object itself). -/
inductive JsVal where
  | undefined : JsVal
  | null : JsVal
  | bool (b : Bool) : JsVal
  | num (n : Int) : JsVal
  | str (s : String) : JsVal
  | protoMember (key : String) : JsVal
  deriving DecidableEq, Repr

/-- JavaScript `ToBoolean`. -/
def JsVal.truthy : JsVal → Bool
  | .undefined => false
  | .null => false
  | .bool b => b
  | .num n => n != 0
  | .str s => s != ""
  | .protoMember _ => true

/-- JavaScript `a || b`. -/
def JsVal.or (a b : JsVal) : JsVal :=
  if a.truthy then a else b

/-- JavaScript `ToPropertyKey` on the values used as keys here. -/
def JsVal.toPropertyKey : JsVal → String
  | .undefined => "undefined"
  | .null => "null"
  | .bool true => "true"
  | .bool false => "false"
  | .num n => toString n
  | .str s => s
  | .protoMember k => k

/-- Array read `a[i]` with a JavaScript integer index. -/
def arrayGet {α : Type} (a : List α) (i : Int) : Option α :=
  if 0 ≤ i then a.get? i.toNat else none

/-! ## Records of the dataset -/

/-- The object `{ common: ... }` found under `name` and `translations.spa`. -/
structure NameEntry where
  common : String
  deriving DecidableEq, Repr

/-- The object under `translations`; `spa` may be missing. -/
structure Translations where
  spa : Option NameEntry
  deriving DecidableEq, Repr

/-- The object under `flags`. -/
structure Flags where
  svg : Option String
  png : Option String
  deriving DecidableEq, Repr

/-- One entry of the response of the countries endpoint, with the fields
requested by `init`. `capital`, `continents` and `translations` may be missing;
`independent` is whatever JSON value the entry carries (`undefined` if none). -/
structure Country where
  name : NameEntry
  translations : Option Translations
  capital : Option (List String)
  continents : Option (List String)
  independent : JsVal
  flags : Flags
  deriving DecidableEq, Repr

/-- What the JavaScript runtime supplies. -/
structure Host where
  /-- The method `String.prototype.toLowerCase`. -/
  toLowerCase : String → String
  /-- The call `a.localeCompare(b, 'es')`. -/
  localeCompare : String → String → Int
  /-- The method `Array.prototype.sort` with a comparator. -/
  arraySort : (Country → Country → Int) → List Country → List Country

/-! ## Field resolvers (`main.js` lines 60–94) -/

/-- The local `name` of `getCountryName` before the overrides (lines 61–63). -/
def localizedName (country : Country) : String :=
  match country.translations with
  | some t =>
    match t.spa with
    | some spa => spa.common
    | none => country.name.common
  | none => country.name.common

/-- The function `getCountryName` (lines 60–74). -/
def getCountryName (host : Host) (country : Country) : String :=
  let name := localizedName country
  if host.toLowerCase name = "suazilandia" ∨ host.toLowerCase name = "swaziland" then
    "Esuatini"
  else if host.toLowerCase name = "djibouti" then
    "Yibuti"
  else
    name

/-- The function `getCapitalName` (lines 76–79). -/
def getCapitalName (country : Country) : String :=
  match country.capital with
  | none => "Sin Capital"
  | some [] => "Sin Capital"
  | some (first :: _) => first

/-- The own properties of the object literal `continentMap` (lines 82–90). -/
def continentMapOwn (key : String) : Option String :=
  if key = "Africa" then some "África"
  else if key = "North America" then some "América del Norte"
  else if key = "South America" then some "América del Sur"
  else if key = "Asia" then some "Asia"
  else if key = "Europe" then some "Europa"
  else if key = "Oceania" then some "Oceanía"
  else if key = "Antarctica" then some "Antártida"
  else none

/-- The property names a plain object inherits from `Object.prototype` in a
browser. -/
def objectPrototypeKeys : List String :=
  ["constructor", "hasOwnProperty", "isPrototypeOf", "propertyIsEnumerable",
   "toLocaleString", "toString", "valueOf", "__proto__",
   "__defineGetter__", "__defineSetter__", "__lookupGetter__", "__lookupSetter__"]

/-- The property read `continentMap[key]` (line 93): an own property if there is
one, otherwise what the prototype chain gives, otherwise `undefined`. -/
def continentMapGet (key : JsVal) : JsVal :=
  match continentMapOwn key.toPropertyKey with
  | some v => .str v
  | none =>
    if key.toPropertyKey ∈ objectPrototypeKeys then .protoMember key.toPropertyKey
    else .undefined

/-- The local `continent` of `getContinentName` (line 92): an array, even an
empty one, is truthy, so `continents[0]` is read whenever the field is there. -/
def firstContinent (country : Country) : JsVal :=
  match country.continents with
  | some [] => .undefined
  | some (c :: _) => .str c
  | none => .str "Desconocido"

/-- The function `getContinentName` (lines 81–94). -/
def getContinentName (country : Country) : JsVal :=
  (continentMapGet (firstContinent country)).or (firstContinent country)

/-! ## Module state (lines 2–10) and the DOM -/

/-- The eight module-level variables of `main.js`. -/
structure State where
  allCountries : List Country
  sovereignCountries : List Country
  displayCountries : List Country
  currentIndex : Int
  isNameVisible : Bool
  isCapitalVisible : Bool
  isContinentVisible : Bool
  isSovereignFilterActive : Bool
  deriving DecidableEq, Repr

/-- The values of the module-level variables before `init` runs. -/
def moduleState : State where
  allCountries := []
  sovereignCountries := []
  displayCountries := []
  currentIndex := 0
  isNameVisible := true
  isCapitalVisible := true
  isContinentVisible := true
  isSovereignFilterActive := false

/-- What `toggleButtonState` and the filter branch of `updateUI` set on a
button: membership of the class `active` and `style.opacity`. -/
structure ButtonLook where
  active : Bool
  opacity : String
  deriving DecidableEq, Repr

/-- The DOM properties written by `main.js`. A `...Hidden` or `...Blurred` field
is membership of the class `hidden` or `blurred-text` in the element's
`classList`; `filterSpan` is the text of the `<span>` of the filter button's
`innerHTML` (the icon markup goes with it). -/
structure View where
  loadingHidden : Bool
  loadingText : String
  cardHidden : Bool
  flagSrc : Option String
  flagAlt : String
  nameText : String
  capitalText : String
  continentText : JsVal
  counterText : String
  nameBlurred : Bool
  capitalBlurred : Bool
  continentBlurred : Bool
  toggleNameBtn : ButtonLook
  toggleCapitalBtn : ButtonLook
  toggleContinentBtn : ButtonLook
  toggleFilterBtn : ButtonLook
  filterSpan : String
  deriving DecidableEq, Repr

/-- The module state together with the DOM. -/
structure Page where
  st : State
  dom : View
  deriving DecidableEq, Repr

/-- The function `toggleButtonState` (lines 151–159). -/
def toggleButtonState (isActive : Bool) : ButtonLook :=
  if isActive then { active := true, opacity := "1" }
  else { active := false, opacity := "0.5" }

/-- The function `updateVisibilityClass` (lines 143–149): whether `blurred-text` is in the
class list afterwards. -/
def updateVisibilityClass (isVisible : Bool) : Bool :=
  if isVisible then false else true

/-- The expression `country.flags.svg || country.flags.png` (line 106). -/
def flagUrl (country : Country) : Option String :=
  match country.flags.svg with
  | some u => if u = "" then country.flags.png else some u
  | none => country.flags.png

/-- Lines 102–140 of `updateUI`, with the current record in hand: every
assignment to the DOM. -/
def paint (host : Host) (st : State) (country : Country) (dom : View) : View :=
  { dom with
    flagSrc := flagUrl country
    flagAlt := "Bandera de " ++ getCountryName host country
    nameText := getCountryName host country
    capitalText := getCapitalName country
    continentText := getContinentName country
    counterText :=
      toString (st.currentIndex + 1) ++ " / " ++ toString st.displayCountries.length
    nameBlurred := updateVisibilityClass st.isNameVisible
    capitalBlurred := updateVisibilityClass st.isCapitalVisible
    continentBlurred := updateVisibilityClass st.isContinentVisible
    toggleNameBtn := toggleButtonState st.isNameVisible
    toggleCapitalBtn := toggleButtonState st.isCapitalVisible
    toggleContinentBtn := toggleButtonState st.isContinentVisible
    toggleFilterBtn :=
      if st.isSovereignFilterActive then { active := true, opacity := "1" }
      else { active := false, opacity := "0.7" }
    filterSpan := if st.isSovereignFilterActive then "195" else "Todo" }

/-- The function `updateUI` (lines 96–141). The result is `none` when the call throws: that
happens only when `displayCountries[currentIndex]` is `undefined`, on line 102,
before anything is written. -/
def updateUI (host : Host) (st : State) (dom : View) : Option View :=
  if st.displayCountries.length = 0 then some dom
  else
    match arrayGet st.displayCountries st.currentIndex with
    | none => none
    | some country => some (paint host st country dom)

/-- The tail of every handler: the state has been assigned, `updateUI()` is the
last statement. If it throws, the DOM stays as it was. -/
def render (host : Host) (st : State) (dom : View) : Page :=
  { st := st, dom := (updateUI host st dom).getD dom }

/-! ## Click handlers (`setupListeners`, lines 161–213) -/

/-- The `prevBtn` handler (lines 162–169). -/
def prevClick (host : Host) (p : Page) : Page :=
  if p.st.currentIndex > 0 then
    render host { p.st with currentIndex := p.st.currentIndex - 1 } p.dom
  else
    render host { p.st with currentIndex := (p.st.displayCountries.length : Int) - 1 } p.dom

/-- The `nextBtn` handler (lines 171–178). -/
def nextClick (host : Host) (p : Page) : Page :=
  if p.st.currentIndex < (p.st.displayCountries.length : Int) - 1 then
    render host { p.st with currentIndex := p.st.currentIndex + 1 } p.dom
  else
    render host { p.st with currentIndex := 0 } p.dom

/-- The `toggleNameBtn` handler (lines 180–183). -/
def toggleNameClick (host : Host) (p : Page) : Page :=
  render host { p.st with isNameVisible := !p.st.isNameVisible } p.dom

/-- The `toggleCapitalBtn` handler (lines 185–188). -/
def toggleCapitalClick (host : Host) (p : Page) : Page :=
  render host { p.st with isCapitalVisible := !p.st.isCapitalVisible } p.dom

/-- The `toggleContinentBtn` handler (lines 190–193). -/
def toggleContinentClick (host : Host) (p : Page) : Page :=
  render host { p.st with isContinentVisible := !p.st.isContinentVisible } p.dom

/-- The `toggleFilterBtn` handler (lines 195–206). -/
def toggleFilterClick (host : Host) (p : Page) : Page :=
  let active := !p.st.isSovereignFilterActive
  render host
    { p.st with
      isSovereignFilterActive := active
      displayCountries := if active then p.st.sovereignCountries else p.st.allCountries
      currentIndex := 0 }
    p.dom

/-- The `keydown` handler (lines 209–212). -/
def keydown (host : Host) (key : String) (p : Page) : Page :=
  let p1 := if key = "ArrowLeft" then prevClick host p else p
  if key = "ArrowRight" then nextClick host p1 else p1

/-- The user events the page reacts to. -/
inductive Action where
  | prev
  | next
  | toggleName
  | toggleCapital
  | toggleContinent
  | toggleFilter
  | key (k : String)
  deriving DecidableEq, Repr

/-- One event. -/
def step (host : Host) (a : Action) (p : Page) : Page :=
  match a with
  | .prev => prevClick host p
  | .next => nextClick host p
  | .toggleName => toggleNameClick host p
  | .toggleCapital => toggleCapitalClick host p
  | .toggleContinent => toggleContinentClick host p
  | .toggleFilter => toggleFilterClick host p
  | .key k => keydown host k p

/-- A finite sequence of events, first to last. -/
def run (host : Host) (acts : List Action) (p : Page) : Page :=
  acts.foldl (fun q a => step host a q) p

/-- The page shows `country`: the three text fields hold its resolved values
and each field carries the class `blurred-text` exactly when its visibility
flag is off. -/
def showsRecord (host : Host) (country : Country) (q : Page) : Prop :=
  q.dom.nameText = getCountryName host country ∧
  q.dom.capitalText = getCapitalName country ∧
  q.dom.continentText = getContinentName country ∧
  q.dom.nameBlurred = (!q.st.isNameVisible) ∧
  q.dom.capitalBlurred = (!q.st.isCapitalVisible) ∧
  q.dom.continentBlurred = (!q.st.isContinentVisible)

instance (host : Host) (country : Country) (q : Page) : Decidable (showsRecord host country q) := by
  unfold showsRecord
  infer_instance

/-! ## Loading (`init`, lines 30–58) -/

/-- The state once the dataset is in place (lines 42–47 over the defaults of
lines 6–10): cursor 0, everything visible, filter off, all countries shown. -/
def loaded (allCountries sovereignCountries : List Country) : State :=
  { moduleState with
    allCountries := allCountries
    sovereignCountries := sovereignCountries
    displayCountries := allCountries }

/-- The sorted array of line 36. -/
def sortedData (host : Host) (data : List Country) : List Country :=
  host.arraySort
    (fun a b => host.localeCompare (getCountryName host a) (getCountryName host b)) data

/-- The filter of line 44, `country.independent === true`. -/
def sovereignOf (countries : List Country) : List Country :=
  countries.filter (fun country => decide (country.independent = JsVal.bool true))

/-- The function `init` (lines 30–58). `response` is the parsed body of the request, `none`
when fetching or parsing fails; the `catch` branch then writes the error text
and registers no handler. -/
def init (host : Host) (response : Option (List Country)) (dom : View) : Page :=
  match response with
  | none =>
    { st := moduleState
      dom := { dom with loadingText := "Error al cargar los países. Intente recargar." } }
  | some data =>
    render host (loaded (sortedData host data) (sovereignOf (sortedData host data)))
      { dom with loadingHidden := true, cardHidden := false }

/-! ## Concrete data used to evaluate the definitions -/

/-- Lower-casing of the letters `A`–`Z`, every other character kept. -/
def asciiLower (s : String) : String :=
  String.mk (s.data.map fun ch =>
    if 65 ≤ ch.toNat ∧ ch.toNat ≤ 90 then Char.ofNat (ch.toNat + 32) else ch)

/-- A host good enough for evaluation: ASCII lower-casing, comparison of the
lengths, and insertion sort. -/
def sampleHost : Host where
  toLowerCase := asciiLower
  localeCompare a b := (a.length : Int) - (b.length : Int)
  arraySort cmp l := l.insertionSort fun a b => decide (cmp a b ≤ 0)

/-- A record with the given names, capital list, continent list and
`independent` value. -/
def mkCountry (common : String) (spa : Option String) (capital continents : Option (List String))
    (independent : JsVal) : Country where
  name := { common := common }
  translations := some { spa := spa.map fun s => { common := s } }
  capital := capital
  continents := continents
  independent := independent
  flags := { svg := some (common ++ ".svg"), png := some (common ++ ".png") }

/-- A DOM before the first render. -/
def blankView : View where
  loadingHidden := false
  loadingText := "Cargando..."
  cardHidden := true
  flagSrc := none
  flagAlt := ""
  nameText := ""
  capitalText := ""
  continentText := .str ""
  counterText := ""
  nameBlurred := false
  capitalBlurred := false
  continentBlurred := false
  toggleNameBtn := { active := true, opacity := "1" }
  toggleCapitalBtn := { active := true, opacity := "1" }
  toggleContinentBtn := { active := true, opacity := "1" }
  toggleFilterBtn := { active := false, opacity := "0.7" }
  filterSpan := "Todo"

/-- Spain. -/
def spain : Country :=
  mkCountry "Spain" (some "España") (some ["Madrid"]) (some ["Europe"]) (.bool true)

/-- Eswatini under its former name. -/
def swaziland : Country :=
  mkCountry "Swaziland" (some "Suazilandia") (some ["Mbabane", "Lobamba"]) (some ["Africa"])
    (.bool true)

/-- A dependent territory without a capital. -/
def bouvet : Country :=
  mkCountry "Bouvet Island" (some "Isla Bouvet") (some []) (some ["Antarctica"]) (.bool false)

/-- A three-record dataset. -/
def sampleData : List Country := [spain, swaziland, bouvet]

/-- The page right after loading `sampleData`: cursor 0 of 3. -/
def samplePage : Page := init sampleHost (some sampleData) blankView

/-- The same page after two clicks on `next`: cursor 2 of 3, the last record. -/
def sampleLastPage : Page := run sampleHost [.next, .next] samplePage

/-- A record whose first continent is the name of an inherited property. -/
def constructorLand : Country :=
  mkCountry "Constructor Land" none (some ["Ciudad"]) (some ["constructor"]) (.bool false)

/-- The page right after loading an empty dataset. -/
def emptyPage : Page := init sampleHost (some []) blankView

end PaisesDelMundo

namespace PaisesDelMundo

/-! ## Shared lemmas -/

@[simp]
theorem render_st (host : Host) (st : State) (dom : View) : (render host st dom).st = st := rfl

theorem nextClick_st (host : Host) (p : Page) :
    (nextClick host p).st =
      { p.st with
        currentIndex :=
          if p.st.currentIndex < (p.st.displayCountries.length : Int) - 1 then
            p.st.currentIndex + 1
          else 0 } := by
  unfold nextClick
  split <;> rfl

theorem prevClick_st (host : Host) (p : Page) :
    (prevClick host p).st =
      { p.st with
        currentIndex :=
          if p.st.currentIndex > 0 then p.st.currentIndex - 1
          else (p.st.displayCountries.length : Int) - 1 } := by
  unfold prevClick
  split <;> rfl

theorem length_pos_of_ne_nil {α : Type} {l : List α} (h : l ≠ []) : (0 : Int) < (l.length : Int) := by
  have : 0 < l.length := List.length_pos.mpr h
  omega

/-- On `0 ≤ c < n` the forward rule of the handler is `(c + 1) mod n`. -/
theorem forward_eq_emod (c n : Int) (h0 : 0 ≤ c) (h1 : c < n) :
    (if c < n - 1 then c + 1 else 0) = (c + 1) % n := by
  split
  · rw [Int.emod_eq_of_lt (by omega) (by omega)]
  · have h : c + 1 = n := by omega
    rw [h, Int.emod_self]

/-- On `0 ≤ c < n` the backward rule of the handler is `(c + n - 1) mod n`. -/
theorem backward_eq_emod (c n : Int) (h0 : 0 ≤ c) (h1 : c < n) :
    (if c > 0 then c - 1 else n - 1) = (c + n - 1) % n := by
  split
  · have h : c + n - 1 = (c - 1) + n := by ring
    rw [h, Int.add_emod_self, Int.emod_eq_of_lt (by omega) (by omega)]
  · have h : c + n - 1 = n - 1 := by omega
    rw [h, Int.emod_eq_of_lt (by omega) (by omega)]

/-- The state after `k` clicks on `next`, from a cursor inside a non-empty
list. -/
theorem nextClick_iterate_st (host : Host) (p : Page)
    (h0 : 0 ≤ p.st.currentIndex)
    (h1 : p.st.currentIndex < (p.st.displayCountries.length : Int)) (k : Nat) :
    ((nextClick host)^[k] p).st =
      { p.st with
        currentIndex := (p.st.currentIndex + (k : Int)) % (p.st.displayCountries.length : Int) } := by
  induction k with
  | zero =>
    simp only [Function.iterate_zero, id_eq, Nat.cast_zero, add_zero]
    rw [Int.emod_eq_of_lt h0 h1]
  | succ k ih =>
    rw [Function.iterate_succ_apply', nextClick_st, ih]
    have hn : (0 : Int) < (p.st.displayCountries.length : Int) := by omega
    have hm0 := Int.emod_nonneg (p.st.currentIndex + (k : Int)) (ne_of_gt hn)
    have hm1 := Int.emod_lt_of_pos (p.st.currentIndex + (k : Int)) hn
    simp only
    rw [forward_eq_emod _ _ hm0 hm1]
    congr 1
    rw [Nat.cast_succ, ← add_assoc]
    rw [Int.emod_add_cancel_right, Int.emod_emod_of_dvd _ (dvd_refl _)]

/-- What is true of the module state in every state the handlers can produce:
the two partitions are the ones loaded, the list shown is the partition the
filter flag names, and the cursor is inside the list shown unless that list is
empty. -/
structure WellFormed (allCountries sovereignCountries : List Country) (st : State) : Prop where
  all_eq : st.allCountries = allCountries
  sovereign_eq : st.sovereignCountries = sovereignCountries
  display_eq :
    st.displayCountries =
      if st.isSovereignFilterActive then sovereignCountries else allCountries
  cursor_ok :
    st.displayCountries ≠ [] →
      0 ≤ st.currentIndex ∧ st.currentIndex < (st.displayCountries.length : Int)

theorem wellFormed_loaded (all sov : List Country) : WellFormed all sov (loaded all sov) where
  all_eq := rfl
  sovereign_eq := rfl
  display_eq := rfl
  cursor_ok := fun h => ⟨le_refl _, length_pos_of_ne_nil h⟩

theorem wellFormed_prevClick (host : Host) (all sov : List Country) (p : Page)
    (h : WellFormed all sov p.st) : WellFormed all sov (prevClick host p).st := by
  rw [prevClick_st]
  refine ⟨h.all_eq, h.sovereign_eq, h.display_eq, ?_⟩
  intro hne
  have hc := h.cursor_ok hne
  have hn := length_pos_of_ne_nil hne
  simp only at hn ⊢
  split <;> omega

theorem wellFormed_nextClick (host : Host) (all sov : List Country) (p : Page)
    (h : WellFormed all sov p.st) : WellFormed all sov (nextClick host p).st := by
  rw [nextClick_st]
  refine ⟨h.all_eq, h.sovereign_eq, h.display_eq, ?_⟩
  intro hne
  have hc := h.cursor_ok hne
  have hn := length_pos_of_ne_nil hne
  simp only at hn ⊢
  split <;> omega

theorem wellFormed_toggleFilterClick (host : Host) (all sov : List Country) (p : Page)
    (h : WellFormed all sov p.st) : WellFormed all sov (toggleFilterClick host p).st := by
  refine ⟨h.all_eq, h.sovereign_eq, ?_, ?_⟩
  · show (if (!p.st.isSovereignFilterActive) = true then p.st.sovereignCountries
        else p.st.allCountries) =
      if (!p.st.isSovereignFilterActive) = true then sov else all
    rw [h.all_eq, h.sovereign_eq]
  · intro hne
    exact ⟨le_refl _, length_pos_of_ne_nil hne⟩

/-- A key event is a click on `prev`, a click on `next`, or nothing. -/
theorem keydown_eq (host : Host) (k : String) (p : Page) :
    keydown host k p =
      if k = "ArrowLeft" then prevClick host p
      else if k = "ArrowRight" then nextClick host p
      else p := by
  unfold keydown
  by_cases hl : k = "ArrowLeft"
  · subst hl
    have hne : ¬ ("ArrowLeft" = "ArrowRight") := by decide
    simp only [if_true, if_neg hne]
  · simp only [if_neg hl]

theorem wellFormed_step (host : Host) (all sov : List Country) (a : Action) (p : Page)
    (h : WellFormed all sov p.st) : WellFormed all sov (step host a p).st := by
  cases a with
  | prev => exact wellFormed_prevClick host all sov p h
  | next => exact wellFormed_nextClick host all sov p h
  | toggleName => exact ⟨h.all_eq, h.sovereign_eq, h.display_eq, h.cursor_ok⟩
  | toggleCapital => exact ⟨h.all_eq, h.sovereign_eq, h.display_eq, h.cursor_ok⟩
  | toggleContinent => exact ⟨h.all_eq, h.sovereign_eq, h.display_eq, h.cursor_ok⟩
  | toggleFilter => exact wellFormed_toggleFilterClick host all sov p h
  | key k =>
    show WellFormed all sov (keydown host k p).st
    rw [keydown_eq]
    split
    · exact wellFormed_prevClick host all sov p h
    · split
      · exact wellFormed_nextClick host all sov p h
      · exact h

theorem wellFormed_run (host : Host) (all sov : List Country) (acts : List Action) (p : Page)
    (h : WellFormed all sov p.st) : WellFormed all sov (run host acts p).st := by
  induction acts generalizing p with
  | nil => exact h
  | cons a rest ih => exact ih (step host a p) (wellFormed_step host all sov a p h)

theorem arrayGet_isSome {α : Type} (a : List α) (i : Int) (h0 : 0 ≤ i)
    (h1 : i < (a.length : Int)) : (arrayGet a i).isSome = true := by
  unfold arrayGet
  rw [if_pos h0]
  have : i.toNat < a.length := by omega
  rw [List.get?_eq_get this]
  rfl

/-- On a successful response `init` leaves the module state `loaded`. -/
theorem init_st (host : Host) (data : List Country) (dom : View) :
    (init host (some data) dom).st =
      loaded (sortedData host data) (sovereignOf (sortedData host data)) := rfl

/-! ## Navigation -/

/-- C1: with a cursor `c` inside a non-empty active list of length `n`
(`0 ≤ c < n`), the `next` handler sets the cursor to `c + 1` when `c < n - 1`
and to `0` when `c = n - 1`, the `prev` handler sets it to `c - 1` when `c > 0`
and to `n - 1` when `c = 0`; these are `(c + 1) mod n` and `(c + n - 1) mod n`. -/
theorem nav_wraps (host : Host) (p : Page)
    (hne : p.st.displayCountries ≠ [])
    (h0 : 0 ≤ p.st.currentIndex)
    (h1 : p.st.currentIndex < (p.st.displayCountries.length : Int)) :
    (p.st.currentIndex < (p.st.displayCountries.length : Int) - 1 →
        (nextClick host p).st.currentIndex = p.st.currentIndex + 1) ∧
    (p.st.currentIndex = (p.st.displayCountries.length : Int) - 1 →
        (nextClick host p).st.currentIndex = 0) ∧
    (p.st.currentIndex > 0 →
        (prevClick host p).st.currentIndex = p.st.currentIndex - 1) ∧
    (p.st.currentIndex = 0 →
        (prevClick host p).st.currentIndex = (p.st.displayCountries.length : Int) - 1) ∧
    (nextClick host p).st.currentIndex =
        (p.st.currentIndex + 1) % (p.st.displayCountries.length : Int) ∧
    (prevClick host p).st.currentIndex =
        (p.st.currentIndex + (p.st.displayCountries.length : Int) - 1) %
          (p.st.displayCountries.length : Int) := by
  have _hn := length_pos_of_ne_nil hne
  rw [nextClick_st, prevClick_st]
  refine ⟨?_, ?_, ?_, ?_, ?_, ?_⟩
  · intro h
    simp only [if_pos h]
  · intro h
    have : ¬ p.st.currentIndex < (p.st.displayCountries.length : Int) - 1 := by omega
    simp only [if_neg this]
  · intro h
    simp only [if_pos h]
  · intro h
    have : ¬ p.st.currentIndex > 0 := by omega
    simp only [if_neg this]
  · exact forward_eq_emod _ _ h0 h1
  · exact backward_eq_emod _ _ h0 h1

/-- Witness of C1 at the last of three records: `next` wraps to 0. -/
theorem nav_wraps_witness :
    sampleLastPage.st.displayCountries ≠ [] ∧ sampleLastPage.st.currentIndex = 2 ∧
    (nextClick sampleHost sampleLastPage).st.currentIndex =
      (sampleLastPage.st.currentIndex + 1) % (sampleLastPage.st.displayCountries.length : Int) ∧
    (nextClick sampleHost sampleLastPage).st.currentIndex = 0 :=
  ⟨by decide, by decide,
    (nav_wraps sampleHost sampleLastPage (by decide) (by decide) (by decide)).2.2.2.2.1,
    by decide⟩

/-- C2: from a cursor inside a non-empty active list of length `n`, `n` clicks
on `next` in a row bring the cursor, and the whole module state, back. -/
theorem next_full_cycle (host : Host) (p : Page)
    (hne : p.st.displayCountries ≠ [])
    (h0 : 0 ≤ p.st.currentIndex)
    (h1 : p.st.currentIndex < (p.st.displayCountries.length : Int)) :
    ((nextClick host)^[p.st.displayCountries.length] p).st.currentIndex = p.st.currentIndex ∧
    ((nextClick host)^[p.st.displayCountries.length] p).st = p.st := by
  have _hn := length_pos_of_ne_nil hne
  have key : ((nextClick host)^[p.st.displayCountries.length] p).st = p.st := by
    rw [nextClick_iterate_st host p h0 h1, Int.add_emod_self, Int.emod_eq_of_lt h0 h1]
  exact ⟨by rw [key], key⟩

/-- Witness of C2: three clicks on `next` from cursor 2 of 3. -/
theorem next_full_cycle_witness :
    sampleLastPage.st.displayCountries.length = 3 ∧
    ((nextClick sampleHost)^[sampleLastPage.st.displayCountries.length] sampleLastPage).st.currentIndex
      = sampleLastPage.st.currentIndex :=
  ⟨by decide, (next_full_cycle sampleHost sampleLastPage (by decide) (by decide) (by decide)).1⟩

/-- C3: after any finite sequence of events from the loaded state, for any two
partitions (empty ones included), a non-empty active list has the cursor inside
it, so `displayCountries[currentIndex]` is a record and `updateUI` does not
throw. -/
theorem cursor_in_bounds (host : Host) (all sov : List Country) (dom : View)
    (acts : List Action)
    (hne : (run host acts { st := loaded all sov, dom := dom }).st.displayCountries ≠ []) :
    0 ≤ (run host acts { st := loaded all sov, dom := dom }).st.currentIndex ∧
    (run host acts { st := loaded all sov, dom := dom }).st.currentIndex <
      ((run host acts { st := loaded all sov, dom := dom }).st.displayCountries.length : Int) ∧
    (arrayGet (run host acts { st := loaded all sov, dom := dom }).st.displayCountries
      (run host acts { st := loaded all sov, dom := dom }).st.currentIndex).isSome = true := by
  have hw := wellFormed_run host all sov acts { st := loaded all sov, dom := dom }
    (wellFormed_loaded all sov)
  have hc := hw.cursor_ok hne
  exact ⟨hc.1, hc.2, arrayGet_isSome _ _ hc.1 hc.2⟩

/-- Witness of C3: an empty full list and a one-record sovereign list, `prev`
on the empty list (cursor `-1`), then the filter switched on. -/
theorem cursor_in_bounds_witness :
    (run sampleHost [.prev, .toggleFilter]
      { st := loaded [] [spain], dom := blankView }).st.displayCountries ≠ [] ∧
    (run sampleHost [.prev, .toggleFilter]
      { st := loaded [] [spain], dom := blankView }).st.currentIndex <
      ((run sampleHost [.prev, .toggleFilter]
        { st := loaded [] [spain], dom := blankView }).st.displayCountries.length : Int) :=
  ⟨by decide,
    (cursor_in_bounds sampleHost [] [spain] blankView [.prev, .toggleFilter] (by decide)).2.1⟩

/-- C4: in every state reached from the loaded state, two clicks on the filter
button in a row leave the active list and the filter flag as they were, the
cursor is 0 after the first and after the second click, and after each click
the active list is `sovereignCountries` if the flag became true and
`allCountries` if it became false. Each click does flip the flag, so the first
click shows `allCountries` if the filter was on and `sovereignCountries` if it
was off, and the two partitions themselves stay as loaded; in particular the
first click after loading turns the filter on and shows `sovereignCountries`. -/
theorem toggleFilter_twice (host : Host) (all sov : List Country) (dom : View)
    (acts : List Action) :
    (toggleFilterClick host (toggleFilterClick host
        (run host acts { st := loaded all sov, dom := dom }))).st.displayCountries =
      (run host acts { st := loaded all sov, dom := dom }).st.displayCountries ∧
    (toggleFilterClick host (toggleFilterClick host
        (run host acts { st := loaded all sov, dom := dom }))).st.isSovereignFilterActive =
      (run host acts { st := loaded all sov, dom := dom }).st.isSovereignFilterActive ∧
    (toggleFilterClick host
        (run host acts { st := loaded all sov, dom := dom })).st.currentIndex = 0 ∧
    (toggleFilterClick host (toggleFilterClick host
        (run host acts { st := loaded all sov, dom := dom }))).st.currentIndex = 0 ∧
    (toggleFilterClick host
        (run host acts { st := loaded all sov, dom := dom })).st.displayCountries =
      (if (toggleFilterClick host
          (run host acts { st := loaded all sov, dom := dom })).st.isSovereignFilterActive
        then sov else all) ∧
    (toggleFilterClick host (toggleFilterClick host
        (run host acts { st := loaded all sov, dom := dom }))).st.displayCountries =
      (if (toggleFilterClick host (toggleFilterClick host
          (run host acts { st := loaded all sov, dom := dom }))).st.isSovereignFilterActive
        then sov else all) ∧
    (toggleFilterClick host
        (run host acts { st := loaded all sov, dom := dom })).st.isSovereignFilterActive =
      (!(run host acts { st := loaded all sov, dom := dom }).st.isSovereignFilterActive) ∧
    (toggleFilterClick host (toggleFilterClick host
        (run host acts { st := loaded all sov, dom := dom }))).st.isSovereignFilterActive =
      (!(toggleFilterClick host
        (run host acts { st := loaded all sov, dom := dom })).st.isSovereignFilterActive) ∧
    (toggleFilterClick host
        (run host acts { st := loaded all sov, dom := dom })).st.displayCountries =
      (if (run host acts { st := loaded all sov, dom := dom }).st.isSovereignFilterActive
        then all else sov) ∧
    ((toggleFilterClick host
        (run host acts { st := loaded all sov, dom := dom })).st.allCountries = all ∧
      (toggleFilterClick host
        (run host acts { st := loaded all sov, dom := dom })).st.sovereignCountries = sov) ∧
    ((toggleFilterClick host { st := loaded all sov, dom := dom }).st.isSovereignFilterActive =
        true ∧
      (toggleFilterClick host { st := loaded all sov, dom := dom }).st.displayCountries = sov ∧
      (toggleFilterClick host (toggleFilterClick host
        { st := loaded all sov, dom := dom })).st.isSovereignFilterActive = false ∧
      (toggleFilterClick host (toggleFilterClick host
        { st := loaded all sov, dom := dom })).st.displayCountries = all) := by
  have hw := wellFormed_run host all sov acts { st := loaded all sov, dom := dom }
    (wellFormed_loaded all sov)
  have hw1 := wellFormed_toggleFilterClick host all sov _ hw
  have hw2 := wellFormed_toggleFilterClick host all sov _ hw1
  have hflip : (toggleFilterClick host
        (run host acts { st := loaded all sov, dom := dom })).st.isSovereignFilterActive =
      (!(run host acts { st := loaded all sov, dom := dom }).st.isSovereignFilterActive) := rfl
  have hswitch : (toggleFilterClick host
        (run host acts { st := loaded all sov, dom := dom })).st.displayCountries =
      (if (run host acts { st := loaded all sov, dom := dom }).st.isSovereignFilterActive
        then all else sov) := by
    rw [hw1.display_eq, hflip]
    cases (run host acts { st := loaded all sov, dom := dom }).st.isSovereignFilterActive <;> rfl
  have hflag : (toggleFilterClick host (toggleFilterClick host
        (run host acts { st := loaded all sov, dom := dom }))).st.isSovereignFilterActive =
      (run host acts { st := loaded all sov, dom := dom }).st.isSovereignFilterActive := by
    show (!(!(run host acts { st := loaded all sov, dom := dom }).st.isSovereignFilterActive)) = _
    simp
  refine ⟨?_, hflag, rfl, rfl, hw1.display_eq, hw2.display_eq, hflip, rfl, hswitch,
    ⟨hw1.all_eq, hw1.sovereign_eq⟩, ⟨rfl, rfl, rfl, rfl⟩⟩
  rw [hw2.display_eq, hflag, ← hw.display_eq]

/-- Witness of C4 on the three-record dataset, from cursor 2 of 3: the first
click turns the filter on, shows the two sovereign records and puts the cursor
at 0; the second click turns it off and shows all three again. -/
theorem toggleFilter_twice_witness :
    (run sampleHost [.next, .next]
      { st := loaded sampleData (sovereignOf sampleData), dom := blankView }).st.currentIndex
      = 2 ∧
    sovereignOf sampleData = [spain, swaziland] ∧
    (toggleFilterClick sampleHost (run sampleHost [.next, .next]
      { st := loaded sampleData (sovereignOf sampleData), dom := blankView })).st.currentIndex
      = 0 ∧
    (toggleFilterClick sampleHost (run sampleHost [.next, .next]
      { st := loaded sampleData (sovereignOf sampleData),
        dom := blankView })).st.isSovereignFilterActive = true ∧
    (toggleFilterClick sampleHost (run sampleHost [.next, .next]
      { st := loaded sampleData (sovereignOf sampleData),
        dom := blankView })).st.displayCountries = [spain, swaziland] ∧
    (toggleFilterClick sampleHost (toggleFilterClick sampleHost (run sampleHost [.next, .next]
      { st := loaded sampleData (sovereignOf sampleData),
        dom := blankView }))).st.displayCountries = sampleData :=
  ⟨by decide, by decide,
    (toggleFilter_twice sampleHost sampleData (sovereignOf sampleData) blankView
      [.next, .next]).2.2.1,
    by decide, by decide, by decide⟩

/-! ## Loading -/

/-- C5: for every dataset (and every sort the runtime performs), the
`sovereignCountries` computed by `init` is a subsequence of `allCountries`, in
the same relative order, and holds exactly the records of `allCountries` whose
`independent` field is the boolean `true`. -/
theorem sovereign_subsequence (host : Host) (data : List Country) (dom : View) :
    List.Sublist (init host (some data) dom).st.sovereignCountries
      (init host (some data) dom).st.allCountries ∧
    (∀ country : Country,
      country ∈ (init host (some data) dom).st.sovereignCountries ↔
        country ∈ (init host (some data) dom).st.allCountries ∧
          country.independent = JsVal.bool true) ∧
    (init host (some data) dom).st.sovereignCountries =
      (init host (some data) dom).st.allCountries.filter
        (fun country => decide (country.independent = JsVal.bool true)) := by
  rw [init_st]
  refine ⟨List.filter_sublist _, ?_, rfl⟩
  intro country
  show country ∈ sovereignOf (sortedData host data) ↔ _
  unfold sovereignOf
  rw [List.mem_filter, decide_eq_true_iff]
  exact Iff.rfl

/-! ## Navigation on an empty list -/

theorem updateUI_of_empty (host : Host) (st : State) (dom : View)
    (h : st.displayCountries = []) : updateUI host st dom = some dom := by
  unfold updateUI
  rw [h]
  rfl

theorem render_of_empty (host : Host) (st : State) (dom : View)
    (h : st.displayCountries = []) : render host st dom = { st := st, dom := dom } := by
  unfold render
  rw [updateUI_of_empty host st dom h]
  rfl

/-- C6, the claim as stated fails: on the page loaded from an empty dataset
(empty list, cursor 0) a click on `prev` sets the cursor to `-1`, and from there
a click on `next` sets it back to `0`; neither click leaves the state as it
was. -/
theorem empty_list_cursor_moves :
    emptyPage.st.displayCountries = [] ∧ emptyPage.st.currentIndex = 0 ∧
    (prevClick sampleHost emptyPage).st.currentIndex = -1 ∧
    (prevClick sampleHost emptyPage).st ≠ emptyPage.st ∧
    (prevClick sampleHost emptyPage).st.displayCountries = [] ∧
    (nextClick sampleHost (prevClick sampleHost emptyPage)).st.currentIndex = 0 ∧
    (nextClick sampleHost (prevClick sampleHost emptyPage)).st ≠
      (prevClick sampleHost emptyPage).st := by
  refine ⟨by decide, by decide, by decide, ?_, by decide, by decide, ?_⟩
  · intro h
    have hc := congrArg State.currentIndex h
    revert hc
    decide
  · intro h
    have hc := congrArg State.currentIndex h
    revert hc
    decide

theorem prevClick_of_empty (host : Host) (p : Page) (h : p.st.displayCountries = []) :
    prevClick host p =
      { st := { p.st with
                currentIndex := if p.st.currentIndex > 0 then p.st.currentIndex - 1 else -1 }
        dom := p.dom } := by
  unfold prevClick
  split
  · rw [render_of_empty]
    exact h
  · rw [render_of_empty, h]
    · rfl
    · exact h

theorem nextClick_of_empty (host : Host) (p : Page) (h : p.st.displayCountries = []) :
    nextClick host p =
      { st := { p.st with
                currentIndex := if p.st.currentIndex < -1 then p.st.currentIndex + 1 else 0 }
        dom := p.dom } := by
  have hlen : (p.st.displayCountries.length : Int) - 1 = -1 := by
    rw [h]
    rfl
  unfold nextClick
  rw [hlen]
  split
  · rw [render_of_empty]
    exact h
  · rw [render_of_empty]
    exact h

/-- What the two handlers do to the cursor over an empty list: `prev` sets it
to `c - 1` when `c > 0` and to `-1` otherwise, `next` sets it to `c + 1` when
`c < -1` and to `0` otherwise; so `next` changes nothing exactly when the cursor
is `0`, and `prev` exactly when it is `-1`. -/
theorem empty_list_cursor (host : Host) (p : Page) (h : p.st.displayCountries = []) :
    (prevClick host p).st.currentIndex =
      (if p.st.currentIndex > 0 then p.st.currentIndex - 1 else -1) ∧
    (nextClick host p).st.currentIndex =
      (if p.st.currentIndex < -1 then p.st.currentIndex + 1 else 0) ∧
    (nextClick host p = p ↔ p.st.currentIndex = 0) ∧
    (prevClick host p = p ↔ p.st.currentIndex = -1) := by
  refine ⟨by rw [prevClick_of_empty host p h], by rw [nextClick_of_empty host p h], ?_, ?_⟩
  · rw [nextClick_of_empty host p h]
    constructor
    · intro heq
      have hc := congrArg (fun q : Page => q.st.currentIndex) heq
      simp only at hc
      split at hc <;> omega
    · intro hc
      rcases p with ⟨st, dom⟩
      rcases st with ⟨a, b, c, d, e, f, g, i⟩
      simp only at hc
      subst hc
      rfl
  · rw [prevClick_of_empty host p h]
    constructor
    · intro heq
      have hc := congrArg (fun q : Page => q.st.currentIndex) heq
      simp only at hc
      split at hc <;> omega
    · intro hc
      rcases p with ⟨st, dom⟩
      rcases st with ⟨a, b, c, d, e, f, g, i⟩
      simp only at hc
      subst hc
      rfl

/-- C6 as amended: with an empty active list a click on `next` or `prev` leaves
the DOM and every module variable other than the cursor (the active list, the
two partitions, the filter flag, the three visibility flags) as they were. -/
theorem empty_list_clicks (host : Host) (p : Page) (h : p.st.displayCountries = []) :
    (prevClick host p).dom = p.dom ∧ (nextClick host p).dom = p.dom ∧
    (prevClick host p).st =
      { p.st with currentIndex := (prevClick host p).st.currentIndex } ∧
    (nextClick host p).st =
      { p.st with currentIndex := (nextClick host p).st.currentIndex } := by
  refine ⟨?_, ?_, ?_, ?_⟩
  · rw [prevClick_of_empty host p h]
  · rw [nextClick_of_empty host p h]
  · rw [prevClick_of_empty host p h]
  · rw [nextClick_of_empty host p h]

/-- Witness of the amended C6 on the page loaded from an empty dataset. -/
theorem empty_list_clicks_witness :
    emptyPage.st.displayCountries = [] ∧
    (prevClick sampleHost emptyPage).dom = emptyPage.dom ∧
    (prevClick sampleHost emptyPage).st =
      { emptyPage.st with currentIndex := (prevClick sampleHost emptyPage).st.currentIndex } :=
  ⟨by decide, (empty_list_clicks sampleHost emptyPage (by decide)).1,
    (empty_list_clicks sampleHost emptyPage (by decide)).2.2.1⟩

/-! ## Field resolvers -/

/-- C7: with `s` the localized name of a record (`translations.spa.common` when
there is a Spanish translation, `name.common` otherwise), `getCountryName`
returns `"Esuatini"` when the lower-cased `s` is `"swaziland"` or
`"suazilandia"`, `"Yibuti"` when it is `"djibouti"`, and `s` itself in every
other case. -/
theorem getCountryName_overrides (host : Host) (country : Country) :
    ((∀ (t : Translations) (spa : NameEntry), country.translations = some t → t.spa = some spa →
        localizedName country = spa.common) ∧
      (country.translations = none → localizedName country = country.name.common) ∧
      (∀ t : Translations, country.translations = some t → t.spa = none →
        localizedName country = country.name.common)) ∧
    (host.toLowerCase (localizedName country) = "swaziland" ∨
        host.toLowerCase (localizedName country) = "suazilandia" →
      getCountryName host country = "Esuatini") ∧
    (host.toLowerCase (localizedName country) = "djibouti" →
      getCountryName host country = "Yibuti") ∧
    (host.toLowerCase (localizedName country) ≠ "swaziland" →
      host.toLowerCase (localizedName country) ≠ "suazilandia" →
      host.toLowerCase (localizedName country) ≠ "djibouti" →
      getCountryName host country = localizedName country) := by
  refine ⟨⟨?_, ?_, ?_⟩, ?_, ?_, ?_⟩
  · intro t spa ht hspa
    unfold localizedName
    rw [ht]
    simp only [hspa]
  · intro ht
    unfold localizedName
    rw [ht]
  · intro t ht hspa
    unfold localizedName
    rw [ht]
    simp only [hspa]
  · intro h
    unfold getCountryName
    simp only
    rw [if_pos (Or.symm h)]
  · intro h
    have h1 : ¬ ("djibouti" = "suazilandia" ∨ "djibouti" = "swaziland") := by decide
    unfold getCountryName
    simp only
    rw [h, if_neg h1, if_pos rfl]
  · intro h1 h2 h3
    unfold getCountryName
    simp only
    rw [if_neg (not_or.mpr ⟨h2, h1⟩), if_neg h3]

/-- Witness of C7: the record named `Suazilandia` in Spanish. -/
theorem getCountryName_overrides_witness :
    localizedName swaziland = "Suazilandia" ∧
    getCountryName sampleHost swaziland = "Esuatini" ∧
    getCountryName sampleHost spain = localizedName spain :=
  ⟨by decide,
    (getCountryName_overrides sampleHost swaziland).2.1 (Or.inr (by decide)),
    (getCountryName_overrides sampleHost spain).2.2.2 (by decide) (by decide) (by decide)⟩

/-- C8: `getCapitalName` returns `'Sin Capital'` when the capital list is
absent or empty, and the first element of the list otherwise. -/
theorem getCapitalName_first (country : Country) :
    (country.capital = none ∨ country.capital = some [] →
      getCapitalName country = "Sin Capital") ∧
    (∀ (first : String) (rest : List String), country.capital = some (first :: rest) →
      getCapitalName country = first) := by
  constructor
  · intro h
    unfold getCapitalName
    rcases h with h | h <;> rw [h]
  · intro first rest h
    unfold getCapitalName
    rw [h]

/-- Witness of C8: a record with two capitals and a record with an empty list. -/
theorem getCapitalName_first_witness :
    getCapitalName swaziland = "Mbabane" ∧ getCapitalName bouvet = "Sin Capital" :=
  ⟨(getCapitalName_first swaziland).2 "Mbabane" ["Lobamba"] (by decide),
    (getCapitalName_first bouvet).1 (Or.inr (by decide))⟩

/-- C9, the code at the failing input: for a record whose first continent is
`"constructor"`, the read `continentMap[continent]` finds the inherited
`Object.prototype.constructor`, which is truthy, so `getContinentName` returns
that function and not the string `"constructor"`. `updateUI` assigns it to
`textContent`. -/
theorem getContinentName_inherited_key :
    constructorLand.continents = some ["constructor"] ∧
    getContinentName constructorLand = JsVal.protoMember "constructor" ∧
    getContinentName constructorLand ≠ JsVal.str "constructor" ∧
    (init sampleHost (some [constructorLand]) blankView).dom.continentText =
      JsVal.protoMember "constructor" := by
  refine ⟨by decide, by decide, by decide, by decide⟩

/-- What C9 says does hold away from the inherited property names: the seven
known names are translated, every other first entry that is not the name of a
property of `Object.prototype` is returned as it is, and a record without a
continents list gives `'Desconocido'`. -/
theorem getContinentName_of_not_inherited (country : Country) :
    (∀ (c : String) (rest : List String), country.continents = some (c :: rest) →
      (c = "Africa" → getContinentName country = JsVal.str "África") ∧
      (c = "North America" → getContinentName country = JsVal.str "América del Norte") ∧
      (c = "South America" → getContinentName country = JsVal.str "América del Sur") ∧
      (c = "Asia" → getContinentName country = JsVal.str "Asia") ∧
      (c = "Europe" → getContinentName country = JsVal.str "Europa") ∧
      (c = "Oceania" → getContinentName country = JsVal.str "Oceanía") ∧
      (c = "Antarctica" → getContinentName country = JsVal.str "Antártida") ∧
      (continentMapOwn c = none → c ∉ objectPrototypeKeys →
        getContinentName country = JsVal.str c) ∧
      (c ∈ objectPrototypeKeys → getContinentName country = JsVal.protoMember c)) ∧
    (country.continents = none → getContinentName country = JsVal.str "Desconocido") := by
  constructor
  · intro c rest hc
    have hfirst : firstContinent country = JsVal.str c := by
      unfold firstContinent
      rw [hc]
    unfold getContinentName
    rw [hfirst]
    refine ⟨?_, ?_, ?_, ?_, ?_, ?_, ?_, ?_, ?_⟩
    · intro h
      subst h
      decide
    · intro h
      subst h
      decide
    · intro h
      subst h
      decide
    · intro h
      subst h
      decide
    · intro h
      subst h
      decide
    · intro h
      subst h
      decide
    · intro h
      subst h
      decide
    · intro hown hproto
      unfold continentMapGet
      simp only [JsVal.toPropertyKey, hown, if_neg hproto]
      rfl
    · intro hproto
      have hown : continentMapOwn c = none := by
        simp only [objectPrototypeKeys, List.mem_cons, List.mem_singleton, List.not_mem_nil,
          or_false] at hproto
        rcases hproto with h | h | h | h | h | h | h | h | h | h | h | h <;> subst h <;> decide
      unfold continentMapGet
      simp only [JsVal.toPropertyKey, hown, if_pos hproto]
      rfl
  · intro hc
    have hfirst : firstContinent country = JsVal.str "Desconocido" := by
      unfold firstContinent
      rw [hc]
    unfold getContinentName
    rw [hfirst]
    decide

/-! ## Masking -/

theorem updateUI_of_current (host : Host) (st : State) (dom : View) (country : Country)
    (h : arrayGet st.displayCountries st.currentIndex = some country) :
    updateUI host st dom = some (paint host st country dom) := by
  have hlen : ¬ st.displayCountries.length = 0 := by
    intro h0
    rw [List.length_eq_zero.mp h0] at h
    unfold arrayGet at h
    split at h <;> simp at h
  unfold updateUI
  rw [if_neg hlen, h]

theorem render_of_current (host : Host) (st : State) (dom : View) (country : Country)
    (h : arrayGet st.displayCountries st.currentIndex = some country) :
    render host st dom = { st := st, dom := paint host st country dom } := by
  unfold render
  rw [updateUI_of_current host st dom country h]
  rfl

theorem showsRecord_paint (host : Host) (st : State) (country : Country) (dom : View) :
    showsRecord host country { st := st, dom := paint host st country dom } := by
  unfold showsRecord paint updateVisibilityClass
  refine ⟨rfl, rfl, rfl, ?_, ?_, ?_⟩
  · cases st.isNameVisible <;> rfl
  · cases st.isCapitalVisible <;> rfl
  · cases st.isContinentVisible <;> rfl

theorem toggleNameClick_of_current (host : Host) (p : Page) (country : Country)
    (h : arrayGet p.st.displayCountries p.st.currentIndex = some country) :
    toggleNameClick host p =
      { st := { p.st with isNameVisible := !p.st.isNameVisible }
        dom := paint host { p.st with isNameVisible := !p.st.isNameVisible } country p.dom } := by
  unfold toggleNameClick
  rw [render_of_current]
  exact h

theorem toggleCapitalClick_of_current (host : Host) (p : Page) (country : Country)
    (h : arrayGet p.st.displayCountries p.st.currentIndex = some country) :
    toggleCapitalClick host p =
      { st := { p.st with isCapitalVisible := !p.st.isCapitalVisible }
        dom := paint host { p.st with isCapitalVisible := !p.st.isCapitalVisible } country
          p.dom } := by
  unfold toggleCapitalClick
  rw [render_of_current]
  exact h

theorem toggleContinentClick_of_current (host : Host) (p : Page) (country : Country)
    (h : arrayGet p.st.displayCountries p.st.currentIndex = some country) :
    toggleContinentClick host p =
      { st := { p.st with isContinentVisible := !p.st.isContinentVisible }
        dom := paint host { p.st with isContinentVisible := !p.st.isContinentVisible } country
          p.dom } := by
  unfold toggleContinentClick
  rw [render_of_current]
  exact h

theorem toggleNameClick_twice_st (host : Host) (p : Page) :
    (toggleNameClick host (toggleNameClick host p)).st = p.st := by
  show ({ ({ p.st with isNameVisible := !p.st.isNameVisible } : State) with
    isNameVisible := !(!p.st.isNameVisible) } : State) = p.st
  rw [Bool.not_not]

theorem toggleCapitalClick_twice_st (host : Host) (p : Page) :
    (toggleCapitalClick host (toggleCapitalClick host p)).st = p.st := by
  show ({ ({ p.st with isCapitalVisible := !p.st.isCapitalVisible } : State) with
    isCapitalVisible := !(!p.st.isCapitalVisible) } : State) = p.st
  rw [Bool.not_not]

theorem toggleContinentClick_twice_st (host : Host) (p : Page) :
    (toggleContinentClick host (toggleContinentClick host p)).st = p.st := by
  show ({ ({ p.st with isContinentVisible := !p.st.isContinentVisible } : State) with
    isContinentVisible := !(!p.st.isContinentVisible) } : State) = p.st
  rw [Bool.not_not]

/-- Two clicks on one visibility button leave the DOM as a render of the
original state leaves it. -/
theorem toggle_twice_dom (host : Host) (p : Page) (country : Country)
    (h : arrayGet p.st.displayCountries p.st.currentIndex = some country) :
    (toggleNameClick host (toggleNameClick host p)).dom = (render host p.st p.dom).dom ∧
    (toggleCapitalClick host (toggleCapitalClick host p)).dom = (render host p.st p.dom).dom ∧
    (toggleContinentClick host (toggleContinentClick host p)).dom =
      (render host p.st p.dom).dom := by
  rw [render_of_current host p.st p.dom country h]
  refine ⟨?_, ?_, ?_⟩
  · rw [toggleNameClick_of_current host (toggleNameClick host p) country h,
      toggleNameClick_of_current host p country h]
    simp only [Bool.not_not]
    rfl
  · rw [toggleCapitalClick_of_current host (toggleCapitalClick host p) country h,
      toggleCapitalClick_of_current host p country h]
    simp only [Bool.not_not]
    rfl
  · rw [toggleContinentClick_of_current host (toggleContinentClick host p) country h,
      toggleContinentClick_of_current host p country h]
    simp only [Bool.not_not]
    rfl

/-- C10: masking is non-destructive. For each of the three fields, two clicks
on its visibility button restore the whole module state. Whenever the cursor is
on a record, `updateUI` writes the resolved name, capital and continent of that
record into the three text fields whatever the visibility flags are, and the
flags decide only the class `blurred-text`; this holds after one click and after
two clicks on any of the buttons, and after two clicks the DOM is the render of
the original state. -/
theorem masking_non_destructive (host : Host) (p : Page) :
    ((toggleNameClick host (toggleNameClick host p)).st = p.st ∧
      (toggleCapitalClick host (toggleCapitalClick host p)).st = p.st ∧
      (toggleContinentClick host (toggleContinentClick host p)).st = p.st) ∧
    (∀ (st : State) (dom : View) (country : Country),
      arrayGet st.displayCountries st.currentIndex = some country →
      ∃ v : View, updateUI host st dom = some v ∧
        showsRecord host country { st := st, dom := v }) ∧
    (∀ country : Country,
      arrayGet p.st.displayCountries p.st.currentIndex = some country →
      (showsRecord host country (toggleNameClick host p) ∧
        showsRecord host country (toggleCapitalClick host p) ∧
        showsRecord host country (toggleContinentClick host p)) ∧
      (showsRecord host country (toggleNameClick host (toggleNameClick host p)) ∧
        showsRecord host country (toggleCapitalClick host (toggleCapitalClick host p)) ∧
        showsRecord host country (toggleContinentClick host (toggleContinentClick host p))) ∧
      ((toggleNameClick host (toggleNameClick host p)).dom = (render host p.st p.dom).dom ∧
        (toggleCapitalClick host (toggleCapitalClick host p)).dom =
          (render host p.st p.dom).dom ∧
        (toggleContinentClick host (toggleContinentClick host p)).dom =
          (render host p.st p.dom).dom)) := by
  refine ⟨⟨toggleNameClick_twice_st host p, toggleCapitalClick_twice_st host p,
    toggleContinentClick_twice_st host p⟩, ?_, ?_⟩
  · intro st dom country h
    exact ⟨paint host st country dom, updateUI_of_current host st dom country h,
      showsRecord_paint host st country dom⟩
  · intro country h
    refine ⟨⟨?_, ?_, ?_⟩, ⟨?_, ?_, ?_⟩, toggle_twice_dom host p country h⟩
    · rw [toggleNameClick_of_current host p country h]
      exact showsRecord_paint host _ country p.dom
    · rw [toggleCapitalClick_of_current host p country h]
      exact showsRecord_paint host _ country p.dom
    · rw [toggleContinentClick_of_current host p country h]
      exact showsRecord_paint host _ country p.dom
    · rw [toggleNameClick_of_current host _ country
        (by rw [toggleNameClick_of_current host p country h]; exact h)]
      exact showsRecord_paint host _ country _
    · rw [toggleCapitalClick_of_current host _ country
        (by rw [toggleCapitalClick_of_current host p country h]; exact h)]
      exact showsRecord_paint host _ country _
    · rw [toggleContinentClick_of_current host _ country
        (by rw [toggleContinentClick_of_current host p country h]; exact h)]
      exact showsRecord_paint host _ country _

/-- Witness of C10 on the loaded sample page, whose current record is Spain:
the name is hidden and shown again. -/
theorem masking_non_destructive_witness :
    arrayGet samplePage.st.displayCountries samplePage.st.currentIndex = some spain ∧
    (toggleNameClick sampleHost samplePage).dom.nameBlurred = true ∧
    showsRecord sampleHost spain (toggleNameClick sampleHost samplePage) ∧
    (toggleNameClick sampleHost (toggleNameClick sampleHost samplePage)).dom =
      (render sampleHost samplePage.st samplePage.dom).dom :=
  ⟨by decide, by decide,
    ((masking_non_destructive sampleHost samplePage).2.2 spain (by decide)).1.1,
    ((masking_non_destructive sampleHost samplePage).2.2 spain (by decide)).2.2.1⟩

end PaisesDelMundo
